import Mathlib

/-!
Shallow embedding of the Notes CRUD service
(`src/notes_backend/src/api/main.py`).

Modelling conventions:

* The relational store is a `List NoteRec`; a committed transaction is a new
  list.  Row ids are the 128-bit integer value of the `UUID` column; server
  timestamps are naturals.
* The database clock `NOW()` is an explicit `now : Nat` argument; within one
  request all occurrences of `NOW()` denote the same value (PostgreSQL fixes
  `NOW()` at transaction start), which the handlers rely on.
* `gen_random_uuid()` is an explicit `newId : Nat` argument; the caller-side
  fact that a freshly generated id is not already a primary key is a
  hypothesis where needed.
* A storage failure (`SQLAlchemyError`) inside a handler's `try` block is
  modelled together with its stage.  The create and update handlers run
  `db.refresh(note)` after `db.commit()`, so their argument `dbErr : DbErr`
  distinguishes an error raised before or at the commit (insert, lookup,
  SQL update, the commit itself) from one raised by the post-commit
  refresh.  The `except` clause always calls `db.rollback()` and raises
  `HTTPException(500, f"Database error: {exc}")`, but rolling back after a
  failed refresh undoes nothing: the commit has already made the mutation
  durable, and the store keeps it.  The delete handler runs no database
  statement after its commit and the read-only handlers commit nothing, so
  for them `dbErr : Option String` injects an error that always leaves the
  committed store unchanged.
* Pydantic body validation (`min_length=1`, `Optional` fields) and the path
  parameter conversion to `UUID` happen before a handler body runs; FastAPI
  answers a failed request validation with status 422 (the application
  installs no custom validation handler).  The `POST_notes`, `GET_notes_id`,
  `PUT_notes_id`, `DELETE_notes_id` route functions model that layer on top
  of the handler bodies `create_note`, `get_note`, `update_note`,
  `delete_note`.
-/

namespace NotesApp

/-- A JSON object field in a request body: missing, explicit `null`, or a
string value.  (The notes payloads only carry string fields.) -/
inductive JsonField where
  | absent
  | null
  | str (s : String)
deriving DecidableEq, Repr

/-- A stored row of the `notes` table / the `Note` response model of
`main.py` (they carry the same five fields). -/
structure NoteRec where
  id : Nat
  title : String
  content : String
  created_at : Nat
  updated_at : Nat
deriving DecidableEq, Repr

/-- The `notes` table: the committed rows, in insertion order. -/
abbrev Store := List NoteRec

/-- Payload for creating a new note (`NoteCreate` in `main.py`), after
validation. -/
structure NoteCreate where
  title : String
  content : String
deriving DecidableEq, Repr

/-- Payload for updating an existing note (`NoteUpdate` in `main.py`), after
validation: each field is `none` when absent or JSON `null`. -/
structure NoteUpdate where
  title : Option String
  content : Option String
deriving DecidableEq, Repr

/-- Outcome of a handler: a successful value, or an `HTTPException` carrying
a status code and a `detail` message. -/
inductive HandlerResult (α : Type) where
  | ok (value : α)
  | error (status : Nat) (detail : String)
deriving DecidableEq, Repr

/-- HTTP status of a handler outcome (success responses are 200). -/
def HandlerResult.status {α : Type} : HandlerResult α → Nat
  | .ok _ => 200
  | .error s _ => s

/-- Lower-case hex digit for a value below 16. -/
def hexChar (n : Nat) : Char :=
  if n < 10 then Char.ofNat (48 + n) else Char.ofNat (87 + n)

/-- Fixed-width big-endian hex rendering of `n` (the low `w` hex digits). -/
def toHexDigits : Nat → Nat → List Char
  | 0, _ => []
  | w + 1, n => toHexDigits w (n / 16) ++ [hexChar (n % 16)]

/-- Canonical textual form of a UUID value, as `str(uuid.UUID)` produces it:
32 lower-case hex digits in 8-4-4-4-12 groups separated by hyphens. -/
def uuidToString (n : Nat) : String :=
  let ds := toHexDigits 32 (n % 2 ^ 128)
  String.mk (ds.take 8 ++ '-' :: (ds.drop 8).take 4 ++ '-' :: (ds.drop 12).take 4
    ++ '-' :: (ds.drop 16).take 4 ++ '-' :: ds.drop 20)

/-- Value of a hex digit character, if it is one. -/
def hexVal (c : Char) : Option Nat :=
  if 48 ≤ c.toNat ∧ c.toNat ≤ 57 then some (c.toNat - 48)
  else if 97 ≤ c.toNat ∧ c.toNat ≤ 102 then some (c.toNat - 87)
  else if 65 ≤ c.toNat ∧ c.toNat ≤ 70 then some (c.toNat - 55)
  else none

/-- Parsing of the `{note_id}` path parameter into a UUID value, as Python's
`uuid.UUID(str)` does at its core: drop hyphens, then require exactly 32 hex
digits. -/
def parseUUID (s : String) : Option Nat :=
  let cs := s.data.filter (fun c => c != '-')
  if cs.length = 32 then
    cs.foldl
      (fun acc c =>
        match acc, hexVal c with
        | some a, some v => some (a * 16 + v)
        | _, _ => none)
      (some 0)
  else none

/-- Pydantic validation of a required string field with `min_length=1`
(fields of `NoteCreate`): a missing or `null` field, or a string shorter
than 1, is rejected. -/
def parseRequiredStr : JsonField → Option String
  | .absent => none
  | .null => none
  | .str s => if 1 ≤ s.length then some s else none

/-- Pydantic validation of an `Optional[str]` field with `min_length=1`
(fields of `NoteUpdate`): a missing field and an explicit `null` both
validate to `none`; a present string must have length at least 1. -/
def parseOptionalStr : JsonField → Option (Option String)
  | .absent => some none
  | .null => some none
  | .str s => if 1 ≤ s.length then some (some s) else none

/-- Primary-key lookup `db.get(NoteORM, note_id)`. -/
def dbGet (db : Store) (nid : Nat) : Option NoteRec :=
  db.find? (fun n => n.id == nid)

/-- Stage of a storage failure (`SQLAlchemyError`) inside the create or
update handler's `try` block.  `beforeCommit diag`: the error, carrying
backend diagnostic `diag`, is raised by a statement up to and including
`db.commit()`, so the `except` clause's `db.rollback()` discards the whole
uncommitted transaction.  `afterCommit diag`: `db.commit()` succeeded and
the error is raised by the following `db.refresh(note)` (`main.py` lines
177 and 248); the rollback then undoes nothing and the committed mutation
persists. -/
inductive DbErr where
  | noErr
  | beforeCommit (diag : String)
  | afterCommit (diag : String)
deriving DecidableEq, Repr

/-- Handler body of `POST /notes` (`create_note` in `main.py`): insert a row,
then set `created_at = NOW(), updated_at = NOW()` in one statement, commit,
refresh, and return the stored record.  On a storage error: rollback, 500 —
but an error in the post-commit `db.refresh` leaves the committed row in
the store. -/
def create_note (payload : NoteCreate) (now newId : Nat) (dbErr : DbErr)
    (db : Store) : HandlerResult NoteRec × Store :=
  let note : NoteRec :=
    { id := newId, title := payload.title, content := payload.content,
      created_at := now, updated_at := now }
  match dbErr with
  | .beforeCommit diag => (.error 500 ("Database error: " ++ diag), db)
  | .noErr => (.ok note, db ++ [note])
  | .afterCommit diag => (.error 500 ("Database error: " ++ diag), db ++ [note])

/-- Handler body of `GET /notes/{note_id}` (`get_note` in `main.py`):
read-only lookup; 404 when the row does not exist, 500 on a storage error. -/
def get_note (nid : Nat) (dbErr : Option String) (db : Store) :
    HandlerResult NoteRec :=
  match dbErr with
  | some diag => .error 500 ("Database error: " ++ diag)
  | none =>
    match dbGet db nid with
    | none => .error 404 "Note not found"
    | some note => .ok note

/-- Handler body of `GET /notes` (`list_notes` in `main.py`): read-only query
`ORDER BY updated_at DESC`; 500 on a storage error. -/
def list_notes (dbErr : Option String) (db : Store) :
    HandlerResult (List NoteRec) :=
  match dbErr with
  | some diag => .error 500 ("Database error: " ++ diag)
  | none => .ok (db.mergeSort (fun a b => decide (b.updated_at ≤ a.updated_at)))

/-- Handler body of `PUT /notes/{note_id}` (`update_note` in `main.py`):
400 before touching storage when both fields are `None`; otherwise look the
row up (404 when absent), overwrite the provided fields, set
`updated_at = NOW()`, commit, refresh, and return the post-update record.
On a storage error: rollback, 500 — but an error in the post-commit
`db.refresh` (only reachable once the row was found and the update
committed) leaves the committed update in the store. -/
def update_note (payload : NoteUpdate) (nid now : Nat) (dbErr : DbErr)
    (db : Store) : HandlerResult NoteRec × Store :=
  if payload.title = none ∧ payload.content = none then
    (.error 400 "Nothing to update", db)
  else
    match dbErr with
    | .beforeCommit diag => (.error 500 ("Database error: " ++ diag), db)
    | .noErr =>
      match dbGet db nid with
      | none => (.error 404 "Note not found", db)
      | some note =>
        let note2 : NoteRec :=
          { note with
            title := payload.title.getD note.title,
            content := payload.content.getD note.content,
            updated_at := now }
        (.ok note2, db.map (fun n => if n.id == nid then note2 else n))
    | .afterCommit diag =>
      match dbGet db nid with
      | none => (.error 404 "Note not found", db)
      | some note =>
        let note2 : NoteRec :=
          { note with
            title := payload.title.getD note.title,
            content := payload.content.getD note.content,
            updated_at := now }
        (.error 500 ("Database error: " ++ diag),
          db.map (fun n => if n.id == nid then note2 else n))

/-- Handler body of `DELETE /notes/{note_id}` (`delete_note` in `main.py`):
look the row up (404 when absent), delete it (`DELETE ... WHERE id = :id`),
commit, and return `{"status": "deleted", "id": str(note_id)}`.  On a
storage error: rollback, 500. -/
def delete_note (nid : Nat) (dbErr : Option String) (db : Store) :
    HandlerResult (String × String) × Store :=
  match dbErr with
  | some diag => (.error 500 ("Database error: " ++ diag), db)
  | none =>
    match dbGet db nid with
    | none => (.error 404 "Note not found", db)
    | some _ => (.ok ("deleted", uuidToString nid), db.filter (fun n => n.id != nid))

/-- Route `POST /notes`: pydantic validation of the body (422 on failure,
before any handler code runs), then the handler body. -/
def POST_notes (titleJ contentJ : JsonField) (now newId : Nat)
    (dbErr : DbErr) (db : Store) : HandlerResult NoteRec × Store :=
  match parseRequiredStr titleJ, parseRequiredStr contentJ with
  | some t, some c => create_note ⟨t, c⟩ now newId dbErr db
  | _, _ => (.error 422 "request validation error", db)

/-- Route `GET /notes/{note_id}`: path-parameter conversion to `UUID`
(422 on failure, before any handler code runs), then the handler body. -/
def GET_notes_id (idStr : String) (dbErr : Option String) (db : Store) :
    HandlerResult NoteRec × Store :=
  match parseUUID idStr with
  | none => (.error 422 "request validation error", db)
  | some nid => (get_note nid dbErr db, db)

/-- Route `PUT /notes/{note_id}`: path-parameter conversion and body
validation (422 on failure, before any handler code runs), then the handler
body. -/
def PUT_notes_id (idStr : String) (titleJ contentJ : JsonField) (now : Nat)
    (dbErr : DbErr) (db : Store) : HandlerResult NoteRec × Store :=
  match parseUUID idStr with
  | none => (.error 422 "request validation error", db)
  | some nid =>
    match parseOptionalStr titleJ, parseOptionalStr contentJ with
    | some t, some c => update_note ⟨t, c⟩ nid now dbErr db
    | _, _ => (.error 422 "request validation error", db)

/-- Route `DELETE /notes/{note_id}`: path-parameter conversion to `UUID`
(422 on failure, before any handler code runs), then the handler body. -/
def DELETE_notes_id (idStr : String) (dbErr : Option String) (db : Store) :
    HandlerResult (String × String) × Store :=
  match parseUUID idStr with
  | none => (.error 422 "request validation error", db)
  | some nid => delete_note nid dbErr db

/-- Data-model invariant of §3 of the spec: `updated_at >= created_at` for
every stored row. -/
abbrev TsInv (db : Store) : Prop := ∀ n ∈ db, n.created_at ≤ n.updated_at

/-- Data-model invariant of §3 of the spec: `title` and `content` are never
empty strings in a stored row. -/
abbrev NonEmptyInv (db : Store) : Prop := ∀ n ∈ db, n.title ≠ "" ∧ n.content ≠ ""

/-- The fixed-width hex rendering has exactly the requested width. -/
theorem toHexDigits_length (w : Nat) : ∀ n, (toHexDigits w n).length = w := by
  induction w with
  | zero => intro n; rfl
  | succ w ih => intro n; simp [toHexDigits, ih]

/-- The textual form of a UUID value is never the empty string (it always
has 36 characters). -/
theorem uuidToString_ne_empty (n : Nat) : uuidToString n ≠ "" := by
  intro h
  have hd := congrArg String.data h
  simp [uuidToString] at hd

/-- A string accepted by a `min_length=1` required field is non-empty. -/
theorem parseRequiredStr_ne_empty {j : JsonField} {s : String}
    (h : parseRequiredStr j = some s) : s ≠ "" := by
  cases j with
  | absent => simp [parseRequiredStr] at h
  | null => simp [parseRequiredStr] at h
  | str t =>
    simp only [parseRequiredStr] at h
    split at h
    · rename_i hlen
      cases h
      intro he
      subst he
      exact absurd hlen (by decide)
    · cases h

/-- A string accepted by a `min_length=1` optional field is non-empty. -/
theorem parseOptionalStr_ne_empty {j : JsonField} {s : String}
    (h : parseOptionalStr j = some (some s)) : s ≠ "" := by
  cases j with
  | absent => simp [parseOptionalStr] at h
  | null => simp [parseOptionalStr] at h
  | str t =>
    simp only [parseOptionalStr] at h
    split at h
    · rename_i hlen
      cases h
      intro he
      subst he
      exact absurd hlen (by decide)
    · cases h

/-- A non-empty string passes the `min_length=1` check. -/
theorem parseRequiredStr_str {s : String} (h : s ≠ "") :
    parseRequiredStr (.str s) = some s := by
  have : 1 ≤ s.length := by
    cases s with
    | mk l =>
      cases l with
      | nil => exact absurd rfl h
      | cons c cs => simp [String.length]
  simp [parseRequiredStr, this]

/-- C2: for every storage state, `GET /notes` succeeds and returns exactly
the stored notes (a permutation of the table), ordered by `updated_at`
descending. -/
theorem c2_list_notes_ordered (db : Store) :
    ∃ l, list_notes none db = .ok l ∧ l.Perm db ∧
      l.Pairwise (fun a b => b.updated_at ≤ a.updated_at) := by
  refine ⟨db.mergeSort (fun a b => decide (b.updated_at ≤ a.updated_at)), rfl,
    List.mergeSort_perm db _, ?_⟩
  have h := @List.sorted_mergeSort NoteRec
    (fun a b => decide (b.updated_at ≤ a.updated_at))
    (fun a b c hab hbc => by
      simp only [decide_eq_true_eq] at hab hbc ⊢
      omega)
    (fun a b => by simpa using Nat.le_total b.updated_at a.updated_at)
    db
  exact h.imp (fun hab => by simpa using hab)

/-- C4: an update request providing neither `title` nor `content` is
answered with 400 "Nothing to update" and the store is untouched,
independently of the storage layer (the same result for every `dbErr`). -/
theorem c4_update_nothing (nid now : Nat) (dbErr : DbErr) (db : Store) :
    update_note ⟨none, none⟩ nid now dbErr db = (.error 400 "Nothing to update", db) := by
  simp [update_note]

/-- C9 counterexample: a storage error does not always leave the stored
state unchanged.  A failure in the post-commit `db.refresh` of create or
update answers 500, yet the store after the failed request differs from the
store before it (the committed mutation persists). -/
theorem c9_storage_error_counterexample :
    (create_note ⟨"a", "b"⟩ 5 7 (.afterCommit "boom") []).1.status = 500 ∧
    (create_note ⟨"a", "b"⟩ 5 7 (.afterCommit "boom") []).2 ≠ [] ∧
    (update_note ⟨some "z", none⟩ 5 9 (.afterCommit "boom")
        [⟨5, "a", "b", 0, 1⟩]).1.status = 500 ∧
    (update_note ⟨some "z", none⟩ 5 9 (.afterCommit "boom")
        [⟨5, "a", "b", 0, 1⟩]).2 ≠ [⟨5, "a", "b", 0, 1⟩] := by decide

/-- C9 (amended): a storage error with diagnostic `diag` during create,
update (with at least one field provided) or delete yields a 500 response
whose detail carries the diagnostic text.  When the error occurs before the
transaction commits — and always, for delete — the rollback leaves the
stored state unchanged by the failed request; when it occurs in the
post-commit `db.refresh` of create or update, the stored state is the one a
successful request would have committed. -/
theorem c9_storage_error_rollback (diag : String) (payload : NoteCreate)
    (p : NoteUpdate) (nid now newId : Nat) (db : Store) (note : NoteRec)
    (hp : p.title ≠ none ∨ p.content ≠ none)
    (hnote : dbGet db nid = some note) :
    create_note payload now newId (.beforeCommit diag) db =
      (.error 500 ("Database error: " ++ diag), db) ∧
    update_note p nid now (.beforeCommit diag) db =
      (.error 500 ("Database error: " ++ diag), db) ∧
    delete_note nid (some diag) db =
      (.error 500 ("Database error: " ++ diag), db) ∧
    (create_note payload now newId (.afterCommit diag) db).1 =
      .error 500 ("Database error: " ++ diag) ∧
    (create_note payload now newId (.afterCommit diag) db).2 =
      (create_note payload now newId .noErr db).2 ∧
    (update_note p nid now (.afterCommit diag) db).1 =
      .error 500 ("Database error: " ++ diag) ∧
    (update_note p nid now (.afterCommit diag) db).2 =
      (update_note p nid now .noErr db).2 ∧
    (∃ pre, "Database error: " ++ diag = pre ++ diag) := by
  have hcond : ¬(p.title = none ∧ p.content = none) := by tauto
  refine ⟨rfl, by simp [update_note, hcond], rfl, rfl, rfl, ?_, ?_,
    ⟨"Database error: ", rfl⟩⟩
  · simp [update_note, hcond, hnote]
  · simp [update_note, hcond, hnote]

/-- Witness for C9 at a concrete erroring request against a one-row
store. -/
theorem c9_storage_error_rollback_witness :
    ((⟨some "x", none⟩ : NoteUpdate).title ≠ none ∨
      (⟨some "x", none⟩ : NoteUpdate).content ≠ none) ∧
    dbGet [⟨2, "t", "c", 0, 1⟩] 2 = some ⟨2, "t", "c", 0, 1⟩ ∧
    (create_note ⟨"a", "b"⟩ 5 7 (.beforeCommit "boom") [⟨2, "t", "c", 0, 1⟩] =
        (.error 500 ("Database error: " ++ "boom"), [⟨2, "t", "c", 0, 1⟩]) ∧
      update_note ⟨some "x", none⟩ 2 5 (.beforeCommit "boom") [⟨2, "t", "c", 0, 1⟩] =
        (.error 500 ("Database error: " ++ "boom"), [⟨2, "t", "c", 0, 1⟩]) ∧
      delete_note 2 (some "boom") [⟨2, "t", "c", 0, 1⟩] =
        (.error 500 ("Database error: " ++ "boom"), [⟨2, "t", "c", 0, 1⟩]) ∧
      (create_note ⟨"a", "b"⟩ 5 7 (.afterCommit "boom") [⟨2, "t", "c", 0, 1⟩]).1 =
        .error 500 ("Database error: " ++ "boom") ∧
      (create_note ⟨"a", "b"⟩ 5 7 (.afterCommit "boom") [⟨2, "t", "c", 0, 1⟩]).2 =
        (create_note ⟨"a", "b"⟩ 5 7 .noErr [⟨2, "t", "c", 0, 1⟩]).2 ∧
      (update_note ⟨some "x", none⟩ 2 5 (.afterCommit "boom") [⟨2, "t", "c", 0, 1⟩]).1 =
        .error 500 ("Database error: " ++ "boom") ∧
      (update_note ⟨some "x", none⟩ 2 5 (.afterCommit "boom") [⟨2, "t", "c", 0, 1⟩]).2 =
        (update_note ⟨some "x", none⟩ 2 5 .noErr [⟨2, "t", "c", 0, 1⟩]).2 ∧
      (∃ pre, "Database error: " ++ "boom" = pre ++ "boom")) :=
  ⟨by decide, rfl,
   c9_storage_error_rollback "boom" ⟨"a", "b"⟩ ⟨some "x", none⟩ 2 5 7
     [⟨2, "t", "c", 0, 1⟩] ⟨2, "t", "c", 0, 1⟩ (by decide) rfl⟩

/-- C10: an update body carrying explicit `null` in both fields validates
exactly as one omitting both fields, and (when the path id parses) gets the
same 400 "Nothing to update" with no storage mutation. -/
theorem c10_null_equals_absent (idStr : String) (now : Nat) (dbErr : DbErr)
    (db : Store) (nid : Nat) (hid : parseUUID idStr = some nid) :
    PUT_notes_id idStr .null .null now dbErr db =
      PUT_notes_id idStr .absent .absent now dbErr db ∧
    PUT_notes_id idStr .null .null now dbErr db =
      (.error 400 "Nothing to update", db) := by
  constructor
  · simp [PUT_notes_id, parseOptionalStr]
  · simp [PUT_notes_id, hid, parseOptionalStr, update_note]

/-- Witness for C10 at the all-zero UUID. -/
theorem c10_null_equals_absent_witness :
    parseUUID "00000000-0000-0000-0000-000000000000" = some 0 ∧
    (PUT_notes_id "00000000-0000-0000-0000-000000000000" .null .null 3 .noErr [] =
        PUT_notes_id "00000000-0000-0000-0000-000000000000" .absent .absent 3 .noErr [] ∧
      PUT_notes_id "00000000-0000-0000-0000-000000000000" .null .null 3 .noErr [] =
        (.error 400 "Nothing to update", [])) :=
  ⟨by decide,
   c10_null_equals_absent "00000000-0000-0000-0000-000000000000" 3 .noErr [] 0 (by decide)⟩

/-- C5 counterexample: the service does not answer request-validation
failures with 400.  An empty title on create and a malformed path id both
produce status 422 (FastAPI's request validation response), not 400. -/
theorem c5_validation_status_counterexample :
    (POST_notes (.str "") (.str "B") 0 0 .noErr []).1.status ≠ 400 ∧
    (POST_notes (.str "") (.str "B") 0 0 .noErr []).1.status = 422 ∧
    (GET_notes_id "not-a-uuid" none []).1.status ≠ 400 ∧
    (GET_notes_id "not-a-uuid" none []).1.status = 422 := by decide

/-- C5 (amended): a request with empty title or empty content on create, or
a path id that does not parse as a UUID on the id routes, is answered with
status 422 and the store is untouched (no storage operation is performed),
independently of the storage layer. -/
theorem c5_validation_422_no_storage :
    (∀ (tJ cJ : JsonField) (now newId : Nat) (dbErr : DbErr) (db : Store),
      tJ = .str "" ∨ cJ = .str "" →
      POST_notes tJ cJ now newId dbErr db =
        (.error 422 "request validation error", db)) ∧
    (∀ (idStr : String) (dbErr : Option String) (db : Store),
      parseUUID idStr = none →
      GET_notes_id idStr dbErr db = (.error 422 "request validation error", db)) ∧
    (∀ (idStr : String) (tJ cJ : JsonField) (now : Nat) (dbErr : DbErr)
        (db : Store),
      parseUUID idStr = none →
      PUT_notes_id idStr tJ cJ now dbErr db =
        (.error 422 "request validation error", db)) ∧
    (∀ (idStr : String) (dbErr : Option String) (db : Store),
      parseUUID idStr = none →
      DELETE_notes_id idStr dbErr db = (.error 422 "request validation error", db)) := by
  have h0 : parseRequiredStr (.str "") = none := rfl
  refine ⟨?_, ?_, ?_, ?_⟩
  · intro tJ cJ now newId dbErr db h
    rcases h with rfl | rfl
    · cases hcc : parseRequiredStr cJ <;> simp [POST_notes, h0, hcc]
    · cases htc : parseRequiredStr tJ <;> simp [POST_notes, h0, htc]
  · intro idStr dbErr db h
    simp [GET_notes_id, h]
  · intro idStr tJ cJ now dbErr db h
    simp [PUT_notes_id, h]
  · intro idStr dbErr db h
    simp [DELETE_notes_id, h]

/-- Witness for the amended C5 at concrete malformed requests. -/
theorem c5_validation_422_no_storage_witness :
    POST_notes (.str "") (.str "B") 1 2 .noErr [] =
      (.error 422 "request validation error", []) ∧
    GET_notes_id "nope" none [] = (.error 422 "request validation error", []) ∧
    PUT_notes_id "nope" .absent .absent 1 .noErr [] =
      (.error 422 "request validation error", []) ∧
    DELETE_notes_id "nope" none [] = (.error 422 "request validation error", []) :=
  ⟨c5_validation_422_no_storage.1 _ _ 1 2 .noErr [] (Or.inl rfl),
   c5_validation_422_no_storage.2.1 "nope" none [] (by decide),
   c5_validation_422_no_storage.2.2.1 "nope" .absent .absent 1 .noErr [] (by decide),
   c5_validation_422_no_storage.2.2.2 "nope" none [] (by decide)⟩

/-- Primary-key lookup of a freshly appended row: if the id was not present
before the insert, the lookup finds the new row. -/
theorem dbGet_append_fresh (db : Store) (note : NoteRec)
    (h : dbGet db note.id = none) : dbGet (db ++ [note]) note.id = some note := by
  unfold dbGet at h ⊢
  rw [List.find?_append, h]
  simp

/-- After deleting every row with a given id, a primary-key lookup of that
id finds nothing. -/
theorem dbGet_filter_out (db : Store) (nid : Nat) :
    dbGet (db.filter (fun n => n.id != nid)) nid = none := by
  unfold dbGet
  rw [List.find?_filter]
  apply List.find?_eq_none.mpr
  intro x hx
  simp

/-- C1: creating a note with non-empty title and content (under a fresh
generated id) succeeds, the record's rendered id is a non-empty string, its
`created_at` equals its `updated_at`, and an immediate get by that id
returns the very same record. -/
theorem c1_create_then_get (t c : String) (now newId : Nat) (db : Store)
    (ht : t ≠ "") (hc : c ≠ "") (hfresh : dbGet db newId = none) :
    ∃ note db2,
      POST_notes (.str t) (.str c) now newId .noErr db = (.ok note, db2) ∧
      uuidToString note.id ≠ "" ∧
      note.created_at = note.updated_at ∧
      get_note note.id none db2 = .ok note := by
  refine ⟨⟨newId, t, c, now, now⟩, db ++ [⟨newId, t, c, now, now⟩], ?_,
    uuidToString_ne_empty _, rfl, ?_⟩
  · simp [POST_notes, parseRequiredStr_str ht, parseRequiredStr_str hc, create_note]
  · have hget := dbGet_append_fresh db ⟨newId, t, c, now, now⟩ hfresh
    simp [get_note, hget]

/-- Witness for C1: creating ("A", "B") on an empty store and reading it
back. -/
theorem c1_create_then_get_witness :
    ("A" : String) ≠ "" ∧ ("B" : String) ≠ "" ∧ dbGet [] 7 = none ∧
    (∃ note db2,
      POST_notes (.str "A") (.str "B") 5 7 .noErr [] = (.ok note, db2) ∧
      uuidToString note.id ≠ "" ∧
      note.created_at = note.updated_at ∧
      get_note note.id none db2 = .ok note) :=
  ⟨by decide, by decide, rfl,
   c1_create_then_get "A" "B" 5 7 [] (by decide) (by decide) rfl⟩

/-- C6: after a successful delete of an id, a get, an update (with at least
one field provided) and a delete on that id all answer 404 "Note not
found", and none of them changes the store. -/
theorem c6_delete_then_not_found (nid now : Nat) (db : Store) (note : NoteRec)
    (hfind : dbGet db nid = some note) :
    ∃ db2,
      delete_note nid none db = (.ok ("deleted", uuidToString nid), db2) ∧
      get_note nid none db2 = .error 404 "Note not found" ∧
      (∀ p : NoteUpdate, p.title ≠ none ∨ p.content ≠ none →
        update_note p nid now .noErr db2 = (.error 404 "Note not found", db2)) ∧
      delete_note nid none db2 = (.error 404 "Note not found", db2) := by
  refine ⟨db.filter (fun n => n.id != nid), ?_, ?_, ?_, ?_⟩
  · simp [delete_note, hfind]
  · simp [get_note, dbGet_filter_out]
  · intro p hp
    have hcond : ¬(p.title = none ∧ p.content = none) := by tauto
    simp [update_note, hcond, dbGet_filter_out]
  · simp [delete_note, dbGet_filter_out]

/-- Witness for C6 on a one-row store. -/
theorem c6_delete_then_not_found_witness :
    dbGet [⟨5, "a", "b", 0, 0⟩] 5 = some ⟨5, "a", "b", 0, 0⟩ ∧
    (∃ db2,
      delete_note 5 none [⟨5, "a", "b", 0, 0⟩] = (.ok ("deleted", uuidToString 5), db2) ∧
      get_note 5 none db2 = .error 404 "Note not found" ∧
      (∀ p : NoteUpdate, p.title ≠ none ∨ p.content ≠ none →
        update_note p 5 9 .noErr db2 = (.error 404 "Note not found", db2)) ∧
      delete_note 5 none db2 = (.error 404 "Note not found", db2)) :=
  ⟨rfl, c6_delete_then_not_found 5 9 [⟨5, "a", "b", 0, 0⟩] ⟨5, "a", "b", 0, 0⟩ rfl⟩

/-- C7: when every stored row satisfies `created_at ≤ updated_at` and the
server clock is not behind any stored `created_at`, the invariant still
holds after a create and after an update. -/
theorem c7_timestamps_invariant (t c : String) (now newId : Nat) (p : NoteUpdate)
    (nid : Nat) (db : Store) (hinv : TsInv db)
    (hclock : ∀ n ∈ db, n.created_at ≤ now) :
    TsInv (create_note ⟨t, c⟩ now newId .noErr db).2 ∧
    TsInv (update_note p nid now .noErr db).2 := by
  constructor
  · intro n hn
    simp only [create_note, List.mem_append, List.mem_singleton] at hn
    rcases hn with hn | rfl
    · exact hinv n hn
    · exact Nat.le_refl _
  · by_cases hcond : p.title = none ∧ p.content = none
    · simpa [update_note, hcond] using hinv
    · cases hget : dbGet db nid with
      | none => simpa [update_note, hcond, hget] using hinv
      | some note =>
        intro n hn
        simp only [update_note, hcond, hget, if_false, List.mem_map] at hn
        rcases hn with ⟨m, hm, rfl⟩
        by_cases hid : (m.id == nid) = true
        · simp only [hid, if_true]
          exact hclock note (List.mem_of_find?_eq_some hget)
        · simp only [hid, if_false]
          exact hinv m hm

/-- Witness for C7 on a one-row store with a later clock. -/
theorem c7_timestamps_invariant_witness :
    TsInv [⟨1, "a", "b", 0, 2⟩] ∧
    (∀ n ∈ [(⟨1, "a", "b", 0, 2⟩ : NoteRec)], n.created_at ≤ 3) ∧
    (TsInv (create_note ⟨"t", "c"⟩ 3 9 .noErr [⟨1, "a", "b", 0, 2⟩]).2 ∧
      TsInv (update_note ⟨some "z", none⟩ 1 3 .noErr [⟨1, "a", "b", 0, 2⟩]).2) :=
  ⟨by decide, by decide,
   c7_timestamps_invariant "t" "c" 3 9 ⟨some "z", none⟩ 1 [⟨1, "a", "b", 0, 2⟩]
     (by decide) (by decide)⟩

/-- Primary-key lookup after replacing the matching row: when the id was
present, the lookup finds the replacement (whose id is that id). -/
theorem dbGet_map_replace (db : Store) (nid : Nat) (note note2 : NoteRec)
    (h : dbGet db nid = some note) (hid : note2.id = nid) :
    dbGet (db.map (fun n => if n.id == nid then note2 else n)) nid = some note2 := by
  induction db with
  | nil => simp [dbGet] at h
  | cons m ms ih =>
    unfold dbGet
    rw [List.map_cons]
    by_cases hm : (m.id == nid) = true
    · rw [if_pos hm]
      exact List.find?_cons_of_pos _ (by simp [hid])
    · rw [if_neg hm]
      have e1 := @List.find?_cons_of_neg NoteRec (fun n => n.id == nid) m
        (List.map (fun n => if n.id == nid then note2 else n) ms) hm
      rw [e1]
      apply ih
      have e2 := @List.find?_cons_of_neg NoteRec (fun n => n.id == nid) m ms hm
      unfold dbGet at h
      rw [e2] at h
      exact h

/-- C3: updating an existing note with at least one field provided commits
a store in which exactly the matching row is replaced; the returned record
keeps the old id and `created_at`, carries `updated_at = now`, takes each
provided field's new value and keeps each unprovided field's old value;
every other row is still in the store, and the row now stored under the id
is the returned record. -/
theorem c3_update_partial (p : NoteUpdate) (nid now : Nat) (db : Store)
    (note : NoteRec) (hp : p.title ≠ none ∨ p.content ≠ none)
    (hfind : dbGet db nid = some note) :
    ∃ note2,
      update_note p nid now .noErr db =
        (.ok note2, db.map (fun n => if n.id == nid then note2 else n)) ∧
      note2.id = note.id ∧
      note2.created_at = note.created_at ∧
      note2.updated_at = now ∧
      note2.title = p.title.getD note.title ∧
      note2.content = p.content.getD note.content ∧
      (p.title = none → note2.title = note.title) ∧
      (p.content = none → note2.content = note.content) ∧
      (∀ n ∈ db, (n.id == nid) = false → n ∈ (update_note p nid now .noErr db).2) ∧
      dbGet (update_note p nid now .noErr db).2 nid = some note2 := by
  have hcond : ¬(p.title = none ∧ p.content = none) := by tauto
  have hnid : note.id = nid := by simpa using List.find?_some hfind
  have heq : update_note p nid now .noErr db =
      (HandlerResult.ok
        { note with
          title := p.title.getD note.title,
          content := p.content.getD note.content,
          updated_at := now },
        db.map (fun n =>
          if n.id == nid then
            { note with
              title := p.title.getD note.title,
              content := p.content.getD note.content,
              updated_at := now }
          else n)) := by
    simp [update_note, hcond, hfind]
  refine ⟨_, heq, rfl, rfl, rfl, rfl, rfl,
    (fun h => by simp [h]), (fun h => by simp [h]), ?_, ?_⟩
  · intro n hn hne
    rw [heq]
    exact List.mem_map.mpr ⟨n, hn, by simp [hne]⟩
  · rw [heq]
    exact dbGet_map_replace db nid note _ hfind hnid

/-- Witness for C3: giving a one-row store a new title only. -/
theorem c3_update_partial_witness :
    ((⟨some "z", none⟩ : NoteUpdate).title ≠ none ∨
      (⟨some "z", none⟩ : NoteUpdate).content ≠ none) ∧
    dbGet [⟨5, "a", "b", 0, 1⟩] 5 = some ⟨5, "a", "b", 0, 1⟩ ∧
    (∃ note2,
      update_note ⟨some "z", none⟩ 5 7 .noErr [⟨5, "a", "b", 0, 1⟩] =
        (.ok note2, [(⟨5, "a", "b", 0, 1⟩ : NoteRec)].map
          (fun n => if n.id == 5 then note2 else n)) ∧
      note2.id = (⟨5, "a", "b", 0, 1⟩ : NoteRec).id ∧
      note2.created_at = (⟨5, "a", "b", 0, 1⟩ : NoteRec).created_at ∧
      note2.updated_at = 7 ∧
      note2.title = (some "z").getD (⟨5, "a", "b", 0, 1⟩ : NoteRec).title ∧
      note2.content = (none : Option String).getD (⟨5, "a", "b", 0, 1⟩ : NoteRec).content ∧
      ((⟨some "z", none⟩ : NoteUpdate).title = none →
        note2.title = (⟨5, "a", "b", 0, 1⟩ : NoteRec).title) ∧
      ((⟨some "z", none⟩ : NoteUpdate).content = none →
        note2.content = (⟨5, "a", "b", 0, 1⟩ : NoteRec).content) ∧
      (∀ n ∈ [(⟨5, "a", "b", 0, 1⟩ : NoteRec)], (n.id == 5) = false →
        n ∈ (update_note ⟨some "z", none⟩ 5 7 .noErr [⟨5, "a", "b", 0, 1⟩]).2) ∧
      dbGet (update_note ⟨some "z", none⟩ 5 7 .noErr [⟨5, "a", "b", 0, 1⟩]).2 5 =
        some note2) :=
  ⟨by decide, rfl,
   c3_update_partial ⟨some "z", none⟩ 5 7 [⟨5, "a", "b", 0, 1⟩] ⟨5, "a", "b", 0, 1⟩
     (by decide) rfl⟩

/-- Appending a row with non-empty fields preserves the non-emptiness
invariant. -/
theorem nonempty_append_note (db : Store) (note : NoteRec)
    (hinv : NonEmptyInv db) (h2 : note.title ≠ "" ∧ note.content ≠ "") :
    NonEmptyInv (db ++ [note]) := by
  intro n hn
  rcases List.mem_append.mp hn with hn | hn
  · exact hinv n hn
  · rw [List.mem_singleton.mp hn]
    exact h2

/-- Replacing the rows matching an id by one record with non-empty fields
preserves the non-emptiness invariant. -/
theorem nonempty_map_replace (db : Store) (nid : Nat) (note2 : NoteRec)
    (hinv : NonEmptyInv db) (h2 : note2.title ≠ "" ∧ note2.content ≠ "") :
    NonEmptyInv (db.map (fun n => if n.id == nid then note2 else n)) := by
  intro n hn
  rcases List.mem_map.mp hn with ⟨m, hm, rfl⟩
  by_cases hid : (m.id == nid) = true
  · simpa [hid] using h2
  · simpa [hid] using hinv m hm

/-- The record the update handler writes has non-empty fields whenever the
provided fields are non-empty and the old row's fields were. -/
theorem updated_fields_nonempty (p : NoteUpdate) (note : NoteRec)
    (ht : ∀ s, p.title = some s → s ≠ "")
    (hc : ∀ s, p.content = some s → s ≠ "")
    (hn : note.title ≠ "" ∧ note.content ≠ "") :
    p.title.getD note.title ≠ "" ∧ p.content.getD note.content ≠ "" := by
  constructor
  · cases hpt : p.title with
    | none => simpa [hpt] using hn.1
    | some s => simpa [hpt] using ht s hpt
  · cases hpc : p.content with
    | none => simpa [hpc] using hn.2
    | some s => simpa [hpc] using hc s hpc

/-- The update handler cannot write an empty title or content: when the
incoming optional fields are non-empty wherever provided and the store
satisfies the non-emptiness invariant, the store after the request does too
(also when the post-commit refresh fails: the committed record's fields are
the same validated ones). -/
theorem update_note_nonempty (p : NoteUpdate) (nid now : Nat)
    (dbErr : DbErr) (db : Store) (hinv : NonEmptyInv db)
    (ht : ∀ s, p.title = some s → s ≠ "")
    (hc : ∀ s, p.content = some s → s ≠ "") :
    NonEmptyInv (update_note p nid now dbErr db).2 := by
  by_cases hcond : p.title = none ∧ p.content = none
  · simpa [update_note, hcond] using hinv
  · cases dbErr with
    | beforeCommit diag => simpa [update_note, hcond] using hinv
    | noErr =>
      cases hget : dbGet db nid with
      | none => simpa [update_note, hcond, hget] using hinv
      | some note =>
        simp only [update_note, hcond, hget, if_false]
        exact nonempty_map_replace db nid _ hinv
          (updated_fields_nonempty p note ht hc
            (hinv note (List.mem_of_find?_eq_some hget)))
    | afterCommit diag =>
      cases hget : dbGet db nid with
      | none => simpa [update_note, hcond, hget] using hinv
      | some note =>
        simp only [update_note, hcond, hget, if_false]
        exact nonempty_map_replace db nid _ hinv
          (updated_fields_nonempty p note ht hc
            (hinv note (List.mem_of_find?_eq_some hget)))

/-- C8: the non-emptiness invariant for stored titles and contents is
preserved by the create, update and delete routes, whatever the incoming
request carries: validation rejects empty strings, so create only inserts
and update only writes non-empty fields, and delete only removes rows. -/
theorem c8_nonempty_invariant (tJ cJ : JsonField) (idStr : String)
    (now newId : Nat) (dbErr : DbErr) (delErr : Option String) (db : Store)
    (hinv : NonEmptyInv db) :
    NonEmptyInv (POST_notes tJ cJ now newId dbErr db).2 ∧
    NonEmptyInv (PUT_notes_id idStr tJ cJ now dbErr db).2 ∧
    NonEmptyInv (DELETE_notes_id idStr delErr db).2 := by
  refine ⟨?_, ?_, ?_⟩
  · cases htc : parseRequiredStr tJ with
    | none => cases hcc : parseRequiredStr cJ <;> simpa [POST_notes, htc, hcc] using hinv
    | some t =>
      cases hcc : parseRequiredStr cJ with
      | none => simpa [POST_notes, htc, hcc] using hinv
      | some c =>
        have h2 : (⟨newId, t, c, now, now⟩ : NoteRec).title ≠ "" ∧
            (⟨newId, t, c, now, now⟩ : NoteRec).content ≠ "" :=
          ⟨parseRequiredStr_ne_empty htc, parseRequiredStr_ne_empty hcc⟩
        cases dbErr with
        | beforeCommit diag => simpa [POST_notes, htc, hcc, create_note] using hinv
        | noErr =>
          simp only [POST_notes, htc, hcc, create_note]
          exact nonempty_append_note db _ hinv h2
        | afterCommit diag =>
          simp only [POST_notes, htc, hcc, create_note]
          exact nonempty_append_note db _ hinv h2
  · cases hu : parseUUID idStr with
    | none => simpa [PUT_notes_id, hu] using hinv
    | some nid =>
      cases htc : parseOptionalStr tJ with
      | none => cases hcc : parseOptionalStr cJ <;>
          simpa [PUT_notes_id, hu, htc, hcc] using hinv
      | some t? =>
        cases hcc : parseOptionalStr cJ with
        | none => simpa [PUT_notes_id, hu, htc, hcc] using hinv
        | some c? =>
          simp only [PUT_notes_id, hu, htc, hcc]
          refine update_note_nonempty ⟨t?, c?⟩ nid now dbErr db hinv ?_ ?_
          · intro s hs
            have hs2 : t? = some s := hs
            exact parseOptionalStr_ne_empty (by rw [htc, hs2])
          · intro s hs
            have hs2 : c? = some s := hs
            exact parseOptionalStr_ne_empty (by rw [hcc, hs2])
  · cases hu : parseUUID idStr with
    | none => simpa [DELETE_notes_id, hu] using hinv
    | some nid =>
      cases delErr with
      | some diag => simpa [DELETE_notes_id, hu, delete_note] using hinv
      | none =>
        cases hget : dbGet db nid with
        | none => simpa [DELETE_notes_id, hu, delete_note, hget] using hinv
        | some note =>
          intro n hn
          simp only [DELETE_notes_id, hu, delete_note, hget, List.mem_filter] at hn
          exact hinv n hn.1

/-- Witness for C8 on a one-row store, one concrete request per route. -/
theorem c8_nonempty_invariant_witness :
    NonEmptyInv [⟨1, "a", "b", 0, 2⟩] ∧
    (NonEmptyInv (POST_notes (.str "t") (.str "c") 3 9 .noErr
        [⟨1, "a", "b", 0, 2⟩]).2 ∧
      NonEmptyInv (PUT_notes_id "00000000-0000-0000-0000-000000000001"
        (.str "t") (.str "c") 3 .noErr [⟨1, "a", "b", 0, 2⟩]).2 ∧
      NonEmptyInv (DELETE_notes_id "00000000-0000-0000-0000-000000000001"
        none [⟨1, "a", "b", 0, 2⟩]).2) :=
  ⟨by decide,
   c8_nonempty_invariant (.str "t") (.str "c")
     "00000000-0000-0000-0000-000000000001" 3 9 .noErr none [⟨1, "a", "b", 0, 2⟩]
     (by decide)⟩

end NotesApp
